import Mathlib

/-!
Verification of the jinlei RAG question-answering demo.

The repository has three Python files:
* `build_knowledge_base.py` — walks a knowledge directory, loads PDF/Word
  files, splits them into chunks, embeds them and saves a FAISS index;
* `app.py` — a Streamlit chat front-end that loads the FAISS index, retrieves
  the top-3 chunks for a question and asks an Ollama LLM for an answer;
* `test_retrieval.py` — a small script that loads the index and runs one
  similarity search.

External collaborators (the document loaders, the text splitter, the
embedding backend, FAISS and the LLM) are modelled as explicit parameters of
the embedded functions (environment records of functions and failure flags),
so that the repository's own control flow — which is what the claims are
about — is embedded faithfully.  The FAISS vector index itself is third-party
code, not part of the repository; where a claim is about its query/persist
contract, the index is modelled from the spec (such definitions say so in
their doc comments).
-/

/-- A loaded document page or chunk: LangChain `Document`, with its
`page_content` and the `source` entry of its metadata. -/
structure Doc where
  page_content : String
  source : String
deriving Repr, DecidableEq

namespace Py

/-- `os.path.splitext(name)[1]` for a bare file name (no directory part):
the suffix starting at the last dot, provided some earlier character of the
name is not a dot (leading dots never start an extension). -/
def splitextExt (name : String) : String :=
  let cs := name.data
  match cs.reverse.findIdx? (fun c => c == '.') with
  | none => ""
  | some k =>
    let sep := cs.length - 1 - k
    if (cs.take sep).any (fun c => c != '.') then String.mk (cs.drop sep) else ""

/-- `str.lower()` applied character-wise (the extensions compared against are
ASCII, where Python's `lower` coincides with per-character lowercasing). -/
def lower (s : String) : String := String.mk (s.data.map Char.toLower)

end Py

/-- Modelled from the spec: an `IndexEntry` of the vector index stores a
chunk's embedding vector together with its text and source metadata
(`{chunk_id, vector, metadata}`).  Vectors are integer lists; similarity is
the inner product, consistent with the spec's "cosine or inner product". -/
structure IndexEntry where
  vector : List Int
  text : String
  source : String
deriving Repr, DecidableEq

/-- Modelled from the spec: the in-memory vector index is the list of its
entries, in insertion order (FAISS itself is third-party code). -/
structure VIndex where
  entries : List IndexEntry
deriving Repr, DecidableEq

/-- Inner product of two embedding vectors. -/
def dot : List Int → List Int → Int
  | x :: xs, y :: ys => x * y + dot xs ys
  | _, _ => 0

/-- Modelled from the spec: a `QueryResult` pairs an index entry with its
similarity score; the insertion index is kept to express the tie-break. -/
structure QueryResult where
  entry : IndexEntry
  score : Int
  insertion_index : Nat
deriving Repr, DecidableEq

/-- Ranking used by the index query: higher score first, ties broken by
insertion order (spec: "ranked by descending similarity ...; ties broken by
insertion order"). -/
def qr_rank (a b : QueryResult) : Prop :=
  b.score < a.score ∨ (a.score = b.score ∧ a.insertion_index ≤ b.insertion_index)

instance : DecidableRel qr_rank := fun a b =>
  inferInstanceAs
    (Decidable (b.score < a.score ∨ (a.score = b.score ∧ a.insertion_index ≤ b.insertion_index)))

instance : IsTotal QueryResult qr_rank :=
  ⟨fun a b => by unfold qr_rank; omega⟩

instance : IsTrans QueryResult qr_rank :=
  ⟨fun a b c hab hbc => by unfold qr_rank at hab hbc ⊢; omega⟩

/-- Score every entry of the index against the query vector, remembering its
insertion position. -/
def decorate (idx : VIndex) (v : List Int) : List QueryResult :=
  idx.entries.enum.map fun p => ⟨p.2, dot v p.2.vector, p.1⟩

/-- Modelled from the spec: `query(vector, k)` returns up to `k` entries
ranked by descending similarity, ties broken by insertion order. -/
def query (idx : VIndex) (v : List Int) (k : Nat) : List QueryResult :=
  (List.insertionSort qr_rank (decorate idx v)).take k

/-- Modelled from the spec: the persisted index layout is "a directory
containing serialized vectors, serialized metadata (chunk text, source path),
and an embedding-model identifier tag". -/
structure PersistedIndex where
  vectors : List (List Int)
  texts : List String
  sources : List String
  embedding_model : String
deriving Repr, DecidableEq

/-- Modelled from the spec: `persist` serializes the vectors, the metadata
and the embedding-model tag (`db.save_local(FAISS_INDEX_PATH)`). -/
def save_local (idx : VIndex) (model : String) : PersistedIndex :=
  ⟨idx.entries.map IndexEntry.vector,
   idx.entries.map IndexEntry.text,
   idx.entries.map IndexEntry.source,
   model⟩

/-- Modelled from the spec: `load` reads the serialized vectors and metadata
back into an index (`FAISS.load_local(...)`). -/
def load_local (p : PersistedIndex) : VIndex :=
  ⟨(p.vectors.zip (p.texts.zip p.sources)).map fun t => ⟨t.1, t.2.1, t.2.2⟩⟩

namespace Build

def KNOWLEDGE_DIR : String := "./knowledge_base"

def FAISS_INDEX_PATH : String := "./faiss_jinlei_index"

def OLLAMA_EMBEDDING_MODEL : String := "bge-m3"

/-- The extensions registered in `LOADER_MAPPING`
(`{".pdf": PyPDFLoader, ".docx": UnstructuredWordDocumentLoader}`). -/
def LOADER_MAPPING_exts : List String := [".pdf", ".docx"]

/-- `ext = os.path.splitext(file)[1].lower(); ext in LOADER_MAPPING`. -/
def extSupported (name : String) : Bool :=
  LOADER_MAPPING_exts.contains (Py.lower (Py.splitextExt name))

/-- Outcome of `LoaderClass(file_path).load()` for one file, supplied by the
environment: either the loaded documents or the raised exception message. -/
inductive LoadResult where
  | ok (docs : List Doc)
  | err (msg : String)
deriving Repr, DecidableEq

/-- One file found by `os.walk(KNOWLEDGE_DIR)`: its bare name and what its
loader would do if invoked. -/
structure FileEntry where
  name : String
  load : LoadResult
deriving Repr, DecidableEq

/-- Result of the loading loop: the accumulated `documents` list and the
printed diagnostics, in order. -/
structure LoadOutcome where
  documents : List Doc
  diagnostics : List String
deriving Repr, DecidableEq

def loadingMsg (name : String) : String := "   -> 正在加载文件: " ++ name

def loadFailMsg (name e : String) : String := "❌ 文件 " ++ name ++ " 加载失败: " ++ e

/-- The document-loading loop of `build_index` (lines 31–43): for every file,
if its lowercased extension is in `LOADER_MAPPING`, print the loading message
and run the loader, extending `documents` on success and printing a failure
message on exception; files with any other extension are passed over without
any output. -/
def loadFiles : List FileEntry → LoadOutcome
  | [] => ⟨[], []⟩
  | f :: rest =>
    let r := loadFiles rest
    if extSupported f.name then
      match f.load with
      | .ok ds => ⟨ds ++ r.documents, loadingMsg f.name :: r.diagnostics⟩
      | .err e => ⟨r.documents, loadingMsg f.name :: loadFailMsg f.name e :: r.diagnostics⟩
    else r

/-- Environment of `build_index`: the text splitter
(`RecursiveCharacterTextSplitter(chunk_size, chunk_overlap, ...).split_documents`),
the embedding-and-index construction (`FAISS.from_documents`, which may raise),
and whether `db.save_local` raises. -/
structure BuildEnv where
  split : Nat → Nat → List Doc → List Doc
  from_documents : List Doc → Except String VIndex
  save_exc : Option String

/-- How a run of `build_index` ended. -/
inductive BuildStatus where
  | noDocuments
  | splitZero
  | buildFailed (msg : String)
  | success
deriving Repr, DecidableEq

/-- Observable outcome of `build_index`: final status, whether the smaller
splitter was used, the final chunk list, the index paths written to, and the
printed warnings/errors. -/
structure BuildResult where
  status : BuildStatus
  usedSmallSplitter : Bool
  chunks : List Doc
  writes : List String
  diagnostics : List String
deriving Repr, DecidableEq

def noDocsMsg : String := "❌ 警告：未找到任何支持格式的文档，请检查知识库文件夹。"

def splitRetryMsg : String :=
  "💡 第一次切分结果为 0。可能内容太短，尝试使用较小的 chunk_size (例如 400)..."

def splitZeroMsg : String := "❌ 严重警告：文本切分结果仍为 0。请检查文档内容是否为空或不可提取。"

def buildFailMsg (e : String) : String := "❌ 向量化或 FAISS 知识库构建失败: " ++ e

def saveOkMsg : String := "✅ FAISS 索引已成功保存到: " ++ FAISS_INDEX_PATH

/-- `build_index()` of `build_knowledge_base.py`: load the documents; abort
with a warning if none loaded; split with `chunk_size=1000, chunk_overlap=200`;
if that yields zero chunks retry with `chunk_size=400, chunk_overlap=100`;
abort if still zero; otherwise run `FAISS.from_documents` and
`db.save_local(FAISS_INDEX_PATH)` inside one `try`, turning any exception into
a printed failure message.  `writes` records the save attempt, which happens
only after `from_documents` succeeded. -/
def build_index (env : BuildEnv) (files : List FileEntry) : BuildResult :=
  let lo := loadFiles files
  if lo.documents = [] then
    ⟨.noDocuments, false, [], [], lo.diagnostics ++ [noDocsMsg]⟩
  else
    let texts1 := env.split 1000 200 lo.documents
    let usedSmall := texts1 = []
    let texts := if texts1 = [] then env.split 400 100 lo.documents else texts1
    let dsplit := if texts1 = [] then [splitRetryMsg] else []
    if texts = [] then
      ⟨.splitZero, usedSmall, texts, [], lo.diagnostics ++ dsplit ++ [splitZeroMsg]⟩
    else
      match env.from_documents texts with
      | .error e =>
        ⟨.buildFailed e, usedSmall, texts, [], lo.diagnostics ++ dsplit ++ [buildFailMsg e]⟩
      | .ok _db =>
        match env.save_exc with
        | some e =>
          ⟨.buildFailed e, usedSmall, texts, [FAISS_INDEX_PATH],
            lo.diagnostics ++ dsplit ++ [buildFailMsg e]⟩
        | none =>
          ⟨.success, usedSmall, texts, [FAISS_INDEX_PATH],
            lo.diagnostics ++ dsplit ++ [saveOkMsg]⟩

end Build

namespace App

def FAISS_INDEX_PATH : String := "./faiss_jinlei_index"

def OLLAMA_LLM_MODEL : String := "qwen:7b"

def OLLAMA_EMBEDDING_MODEL : String := "m3e-base"

/-- `db.as_retriever(search_kwargs={"k": 3})`. -/
def search_k : Nat := 3

/-- The prompt template of `app.py` (the Python triple-quoted string,
including its indentation). -/
def template : String :=
  "\n        你是一名资深的**金雷科技**维修工程师。\n        请根据用户的问题和提供的**参考维修文档片段**，给出专业、清晰、分步的维修建议。\n        \n        **回答要求和结构：**\n        1. **故障诊断:** 简要总结用户问题的核心故障点。\n        2. **维修建议/步骤:** 列出具体的、可操作的**分步**解决方案。\n        3. **参考依据:** 指出建议是基于哪些文档信息得出的。\n        \n        **【参考维修文档片段】**\n        {context}\n        \n        **【用户提出的问题】**\n        {question}\n        \n        **【金雷科技维修建议】**\n        "

/-- The assembled RAG chain: the loaded index, the question-embedding client
and the LLM client (both external, hence functions of the environment). -/
structure RagChain where
  db : VIndex
  embed : String → List Int
  llm : String → String

/-- The retriever step: embed the question and run the top-`search_k`
similarity search, yielding the retrieved documents. -/
def retrieve (c : RagChain) (q : String) : List Doc :=
  (query c.db (c.embed q) search_k).map fun r => ⟨r.entry.text, r.entry.source⟩

/-- Modelled from the spec: `create_stuff_documents_chain` (third-party) fills
`{context}` with the concatenated full chunk texts — "concatenated chunk
texts (each ... passed in full to the model)".  Chunks are joined with a
blank line. -/
def buildContext : List Doc → String
  | [] => ""
  | [d] => d.page_content
  | d :: d2 :: ds => d.page_content ++ "\n\n" ++ buildContext (d2 :: ds)

/-- Instantiate the prompt template with the context block and the question. -/
def buildPrompt (q ctx : String) : String :=
  (template.replace "{context}" ctx).replace "{question}" q

/-- What `rag_chain.invoke({"input": prompt})` returns: the LLM `answer`, the
retrieved `context` documents, and whether the LLM was invoked at all. -/
structure InvokeResponse where
  answer : String
  context : List Doc
  llmInvoked : Bool
deriving Repr, DecidableEq

/-- `create_retrieval_chain(retriever, document_chain).invoke`: always runs
the retriever, always stuffs whatever it returned into the prompt, and always
invokes the LLM — there is no score threshold anywhere on this path. -/
def rag_invoke (c : RagChain) (q : String) : InvokeResponse :=
  let docs := retrieve c q
  ⟨c.llm (buildPrompt q (buildContext docs)), docs, true⟩

/-- The citation excerpt shown in the expander:
`doc.page_content[:500] + "..."` (Python slices by characters). -/
def displayExcerpt (d : Doc) : String :=
  String.mk (d.page_content.data.take 500) ++ "..."

/-- Environment of the query application: whether the index directory exists,
whether initialization (`FAISS.load_local` etc.) raises, the stored index,
the embedding and LLM clients, and whether `rag_chain.invoke` raises. -/
structure AppEnv where
  index_exists : Bool
  load_exc : Option String
  stored : VIndex
  embed : String → List Int
  llm : String → String
  invoke_exc : Option String

def missingIndexMsg1 : String :=
  "❌ 错误：未找到 FAISS 索引目录 '" ++ FAISS_INDEX_PATH ++ "'。"

def missingIndexMsg2 : String := "请先运行 'python build_knowledge_base.py' 构建知识库！"

def initFailMsg (e : String) : String :=
  "❌ RAG 系统初始化失败，请检查 Ollama 服务是否运行，或模型是否拉取: " ++ e

def initOkMsg : String := "✅ RAG 系统初始化成功！"

def invokeErrMsg (e : String) : String := "抱歉，系统在处理请求时发生错误：" ++ e

/-- `load_rag_chain()` of `app.py`: if the index directory is absent, print
the two error messages and return `None`; otherwise load the index and build
the chain, any exception becoming the initialization-failure message and a
`None` chain.  Returns the chain (if any) and the printed messages. -/
def load_rag_chain (env : AppEnv) : Option RagChain × List String :=
  if env.index_exists then
    match env.load_exc with
    | some e => (none, [initFailMsg e])
    | none => (some ⟨env.stored, env.embed, env.llm⟩, [initOkMsg])
  else
    (none, [missingIndexMsg1, missingIndexMsg2])

/-- The per-question body (lines 98–110): invoke the chain inside `try`,
turning an exception into the apology message with empty `source_docs`. -/
def handle_question (c : RagChain) (exc : Option String) (q : String) : String × List Doc :=
  match exc with
  | some e => (invokeErrMsg e, [])
  | none =>
    let r := rag_invoke c q
    (r.answer, r.context)

/-- The top level of `app.py`: questions are answered only under
`if rag_chain:` — when `load_rag_chain` returned a chain. -/
def app_answer (env : AppEnv) (q : String) : Option (String × List Doc) :=
  match (load_rag_chain env).1 with
  | none => none
  | some c => some (handle_question c env.invoke_exc q)

end App

namespace TestRetrieval

def INDEX_PATH : String := "./faiss_jinlei_index"

def embedding_model : String := "bge-m3"

/-- `db.similarity_search(query, k=3)`. -/
def search_k : Nat := 3

def query_text : String := "六道工序是什么？"

end TestRetrieval

/-! ## Helper lemmas -/

theorem map_zip_reconstruct :
    ∀ es : List IndexEntry,
      ((es.map IndexEntry.vector).zip
          ((es.map IndexEntry.text).zip (es.map IndexEntry.source))).map
        (fun t => (⟨t.1, t.2.1, t.2.2⟩ : IndexEntry)) = es
  | [] => rfl
  | _ :: es => by simp [map_zip_reconstruct es]

theorem load_save_roundtrip (idx : VIndex) (m : String) :
    load_local (save_local idx m) = idx := by
  cases idx with
  | mk es =>
    simp only [load_local, save_local]
    exact congrArg VIndex.mk (map_zip_reconstruct es)

theorem buildContext_contains :
    ∀ (ds : List Doc) (d : Doc), d ∈ ds →
      ∃ pre post, App.buildContext ds = pre ++ d.page_content ++ post := by
  intro ds
  induction ds with
  | nil => intro d h; cases h
  | cons a tl ih =>
    intro d h
    cases tl with
    | nil =>
      have hda : d = a := by
        rcases h with _ | ⟨_, h'⟩
        · rfl
        · cases h'
      subst hda
      exact ⟨"", "", by
        simp [App.buildContext, String.empty_append, String.append_empty]⟩
    | cons b tl2 =>
      rcases h with _ | ⟨_, h'⟩
      · refine ⟨"", "\n\n" ++ App.buildContext (b :: tl2), ?_⟩
        simp only [App.buildContext, String.empty_append, String.append_assoc]
      · rcases ih d h' with ⟨pre, post, hp⟩
        refine ⟨a.page_content ++ "\n\n" ++ pre, post, ?_⟩
        simp only [App.buildContext, hp, String.append_assoc]

/-! ## Claim theorems -/

/-- C1: the claim says the embedding model name configured in the query
application equals the one configured in the build script.  The code violates
this: `app.py` sets `OLLAMA_EMBEDDING_MODEL = "m3e-base"` while
`build_knowledge_base.py` sets `OLLAMA_EMBEDDING_MODEL = "bge-m3"` (and
`test_retrieval.py` agrees with the build script), even though `app.py`'s own
comment says the configuration must stay consistent with the build script. -/
theorem C1_embedding_model_mismatch :
    App.OLLAMA_EMBEDDING_MODEL ≠ Build.OLLAMA_EMBEDDING_MODEL ∧
    TestRetrieval.embedding_model = Build.OLLAMA_EMBEDDING_MODEL :=
  ⟨by decide, rfl⟩

/-- A one-entry index whose sole chunk scores -1000 against the embedded
question, together with an LLM stub, exhibiting a best-match score far below
any threshold. -/
def C2_chain : App.RagChain :=
  ⟨⟨[⟨[1], "低分片段", "doc.pdf"⟩]⟩, fun _ => [-1000], fun _ => "HALLUCINATED"⟩

/-- C2 counterexample: with the best-match similarity score at -1000 — below
any configured threshold — the chain still invokes the language model and
returns its (possibly hallucinated) output instead of a deterministic
"no information" response: no threshold exists anywhere on the query path. -/
theorem C2_counterexample :
    (query C2_chain.db (C2_chain.embed "q") App.search_k).map QueryResult.score = [-1000] ∧
    (App.rag_invoke C2_chain "q").llmInvoked = true ∧
    (App.rag_invoke C2_chain "q").answer = "HALLUCINATED" :=
  ⟨by decide, rfl, rfl⟩

/-- C2 (amended): the app configures no similarity threshold: for every chain
and every question — whatever the retrieved scores are — `rag_chain.invoke`
invokes the language model on the stuffed prompt and returns its output; no
deterministic "no information" branch exists. -/
theorem C2_amended_always_invokes_llm :
    ∀ (c : App.RagChain) (q : String),
      (App.rag_invoke c q).llmInvoked = true ∧
      (App.rag_invoke c q).answer =
        c.llm (App.buildPrompt q (App.buildContext (App.retrieve c q))) :=
  fun _ _ => ⟨rfl, rfl⟩

/-- C5: the code fixes `k = 3` (`search_kwargs={"k": 3}`), and for every
index, query vector and `k`, the query returns at most `k` results, pairwise
ordered by non-increasing similarity score with ties broken by insertion
order (`qr_rank`), and every result is a scored entry of the index. -/
theorem C5_query_topk_sorted :
    App.search_k = 3 ∧
    ∀ (idx : VIndex) (v : List Int) (k : Nat),
      (query idx v k).length ≤ k ∧
      List.Pairwise qr_rank (query idx v k) ∧
      ∀ r ∈ query idx v k, r ∈ decorate idx v := by
  refine ⟨rfl, fun idx v k => ⟨?_, ?_, ?_⟩⟩
  · exact List.length_take_le k (List.insertionSort qr_rank (decorate idx v))
  · exact List.Pairwise.sublist (List.take_sublist k _)
      (List.sorted_insertionSort qr_rank (decorate idx v))
  · intro r hr
    exact (List.perm_insertionSort qr_rank (decorate idx v)).mem_iff.1 (List.mem_of_mem_take hr)

/-- A two-entry index used to instantiate C5 concretely. -/
def C5_idx : VIndex := ⟨[⟨[1], "甲", "a.pdf"⟩, ⟨[2], "乙", "a.pdf"⟩]⟩

/-- C5 witness: instantiating the theorem at a concrete index, vector and
`k = 3`, with the membership hypothesis discharged by evaluation. -/
theorem C5_query_topk_sorted_witness :
    (query C5_idx [1] 3).length ≤ 3 ∧
    (⟨⟨[2], "乙", "a.pdf"⟩, 2, 1⟩ : QueryResult) ∈ decorate C5_idx [1] :=
  ⟨(C5_query_topk_sorted.2 C5_idx [1] 3).1,
   (C5_query_topk_sorted.2 C5_idx [1] 3).2.2 ⟨⟨[2], "乙", "a.pdf"⟩, 2, 1⟩ (by decide)⟩

/-- C6: persisting the index and loading it back from the persisted layout
yields an index returning identical top-k results for every query vector. -/
theorem C6_persist_load_roundtrip :
    ∀ (idx : VIndex) (m : String) (v : List Int) (k : Nat),
      query (load_local (save_local idx m)) v k = query idx v k := by
  intro idx m v k
  rw [load_save_roundtrip]

/-- C3: for every environment and file set, if documents were loaded but the
primary splitting pass (`chunk_size=1000, chunk_overlap=200`) yields zero
chunks, `build_index` retries with the smaller splitter
(`chunk_size=400, chunk_overlap=100`), and declares the split a failure
(`splitZero`) only if the retry also yields zero chunks. -/
theorem C3_retry_small_chunk_size :
    ∀ (env : Build.BuildEnv) (files : List Build.FileEntry),
      (Build.loadFiles files).documents ≠ [] →
      env.split 1000 200 (Build.loadFiles files).documents = [] →
      (Build.build_index env files).usedSmallSplitter = true ∧
      (Build.build_index env files).chunks =
        env.split 400 100 (Build.loadFiles files).documents ∧
      ((Build.build_index env files).status = Build.BuildStatus.splitZero ↔
        env.split 400 100 (Build.loadFiles files).documents = []) := by
  intro env files hd hs
  by_cases h2 : env.split 400 100 (Build.loadFiles files).documents = []
  · simp [Build.build_index, hd, hs, h2]
  · rcases hfd : env.from_documents (env.split 400 100 (Build.loadFiles files).documents)
      with e | db
    · simp [Build.build_index, hd, hs, h2, hfd]
    · rcases hse : env.save_exc with _ | e2 <;>
        simp [Build.build_index, hd, hs, h2, hfd, hse]

/-- Environment for the C3 witness: the splitter returns zero chunks exactly
when called with `chunk_size = 1000`. -/
def C3_env : Build.BuildEnv :=
  ⟨fun cs _ ds => if cs = 1000 then [] else ds,
   fun ds => .ok ⟨ds.map fun d => ⟨[], d.page_content, d.source⟩⟩, none⟩

def C3_files : List Build.FileEntry := [⟨"a.pdf", .ok [⟨"正文", "a.pdf"⟩]⟩]

/-- C3 witness: a concrete non-empty document set whose primary split is
empty; the build uses the smaller splitter and its chunks. -/
theorem C3_retry_small_chunk_size_witness :
    (Build.loadFiles C3_files).documents ≠ [] ∧
    C3_env.split 1000 200 (Build.loadFiles C3_files).documents = [] ∧
    (Build.build_index C3_env C3_files).usedSmallSplitter = true ∧
    (Build.build_index C3_env C3_files).chunks =
      C3_env.split 400 100 (Build.loadFiles C3_files).documents :=
  ⟨by decide, by decide,
   (C3_retry_small_chunk_size C3_env C3_files (by decide) (by decide)).1,
   (C3_retry_small_chunk_size C3_env C3_files (by decide) (by decide)).2.1⟩

/-- C4: building from zero loadable documents ends in the `noDocuments`
failure, and whenever the build aborts for an empty corpus — no documents, or
zero chunks even after the retry (`splitZero`) — nothing is written to the
persisted index path and a diagnostic is printed. -/
theorem C4_empty_corpus_no_write :
    ∀ (env : Build.BuildEnv) (files : List Build.FileEntry),
      ((Build.loadFiles files).documents = [] →
        (Build.build_index env files).status = Build.BuildStatus.noDocuments) ∧
      ((Build.build_index env files).status = Build.BuildStatus.noDocuments ∨
          (Build.build_index env files).status = Build.BuildStatus.splitZero →
        (Build.build_index env files).writes = [] ∧
        (Build.build_index env files).diagnostics ≠ []) := by
  intro env files
  constructor
  · intro hd
    simp [Build.build_index, hd]
  · by_cases hd : (Build.loadFiles files).documents = []
    · intro _
      simp [Build.build_index, hd]
    · by_cases h1 : env.split 1000 200 (Build.loadFiles files).documents = []
      · by_cases h2 : env.split 400 100 (Build.loadFiles files).documents = []
        · intro _
          simp [Build.build_index, hd, h1, h2]
        · rcases hfd : env.from_documents (env.split 400 100 (Build.loadFiles files).documents)
            with e | db
          · intro hst
            simp [Build.build_index, hd, h1, h2, hfd] at hst
          · rcases hse : env.save_exc with _ | e2 <;>
              · intro hst
                simp [Build.build_index, hd, h1, h2, hfd, hse] at hst
      · rcases hfd : env.from_documents (env.split 1000 200 (Build.loadFiles files).documents)
          with e | db
        · intro hst
          simp [Build.build_index, hd, h1, hfd] at hst
        · rcases hse : env.save_exc with _ | e2 <;>
            · intro hst
              simp [Build.build_index, hd, h1, hfd, hse] at hst

/-- Environment for the C4 witness. -/
def C4_env : Build.BuildEnv :=
  ⟨fun _ _ ds => ds, fun _ => .ok ⟨[]⟩, none⟩

/-- C4 witness: with zero files (hence zero loadable documents) the build
fails with the empty-corpus status and writes nothing. -/
theorem C4_empty_corpus_no_write_witness :
    (Build.build_index C4_env []).status = Build.BuildStatus.noDocuments ∧
    (Build.build_index C4_env []).writes = [] := by
  have h := C4_empty_corpus_no_write C4_env []
  exact ⟨h.1 rfl, (h.2 (Or.inl (h.1 rfl))).1⟩

/-- C7: if the index directory is absent at query time, `load_rag_chain`
prints the two error messages — the second instructing the user to run the
build script — returns no chain, and consequently the app answers no
question. -/
theorem C7_missing_index_diagnostic :
    ∀ env : App.AppEnv, env.index_exists = false →
      (App.load_rag_chain env).1 = none ∧
      (App.load_rag_chain env).2 = [App.missingIndexMsg1, App.missingIndexMsg2] ∧
      App.missingIndexMsg2 = "请先运行 'python build_knowledge_base.py' 构建知识库！" ∧
      ∀ q, App.app_answer env q = none := by
  intro env h
  have h1 : App.load_rag_chain env = (none, [App.missingIndexMsg1, App.missingIndexMsg2]) := by
    simp [App.load_rag_chain, h]
  refine ⟨by rw [h1], by rw [h1], rfl, fun q => ?_⟩
  simp [App.app_answer, h1]

/-- Environment for the C7 witness: the index directory does not exist. -/
def C7_env : App.AppEnv := ⟨false, none, ⟨[]⟩, fun _ => [], fun _ => "", none⟩

/-- C7 witness: with the index directory absent, no chain is constructed and
a concrete question is not answered. -/
theorem C7_missing_index_diagnostic_witness :
    (App.load_rag_chain C7_env).1 = none ∧ App.app_answer C7_env "设备无法启动" = none :=
  ⟨(C7_missing_index_diagnostic C7_env rfl).1,
   (C7_missing_index_diagnostic C7_env rfl).2.2.2 "设备无法启动"⟩

/-- C8: external-service failures are caught at the component boundary and
become user-facing diagnostics, and nothing is written to the index path
unless embedding and index construction both succeed:
(1) if `build_index` attempted a write, `FAISS.from_documents` succeeded on
    the final chunk list;
(2) every non-successful build run prints a diagnostic (the embedded function
    is total, so no failure escapes as a crash);
(3) an initialization failure in the app yields the failure message and no
    chain;
(4) an exception from `rag_chain.invoke` yields the apology message and empty
    sources instead of a crash. -/
theorem C8_failures_diagnosed_no_partial_write :
    (∀ (env : Build.BuildEnv) (files : List Build.FileEntry),
      (Build.build_index env files).writes ≠ [] →
      ∃ db, env.from_documents (Build.build_index env files).chunks = Except.ok db) ∧
    (∀ (env : Build.BuildEnv) (files : List Build.FileEntry),
      (Build.build_index env files).status ≠ Build.BuildStatus.success →
      (Build.build_index env files).diagnostics ≠ []) ∧
    (∀ (aenv : App.AppEnv) (e : String),
      aenv.index_exists = true → aenv.load_exc = some e →
      App.load_rag_chain aenv = (none, [App.initFailMsg e])) ∧
    (∀ (c : App.RagChain) (e q : String),
      App.handle_question c (some e) q = (App.invokeErrMsg e, [])) := by
  refine ⟨?_, ?_, ?_, ?_⟩
  · intro env files hw
    by_cases hd : (Build.loadFiles files).documents = []
    · simp [Build.build_index, hd] at hw
    · by_cases h1 : env.split 1000 200 (Build.loadFiles files).documents = []
      · by_cases h2 : env.split 400 100 (Build.loadFiles files).documents = []
        · simp [Build.build_index, hd, h1, h2] at hw
        · rcases hfd : env.from_documents (env.split 400 100 (Build.loadFiles files).documents)
            with e | db
          · simp [Build.build_index, hd, h1, h2, hfd] at hw
          · exact ⟨db, by
              rcases hse : env.save_exc with _ | e2 <;>
                simp [Build.build_index, hd, h1, h2, hfd, hse]⟩
      · rcases hfd : env.from_documents (env.split 1000 200 (Build.loadFiles files).documents)
          with e | db
        · simp [Build.build_index, hd, h1, hfd] at hw
        · exact ⟨db, by
            rcases hse : env.save_exc with _ | e2 <;>
              simp [Build.build_index, hd, h1, hfd, hse]⟩
  · intro env files hst
    by_cases hd : (Build.loadFiles files).documents = []
    · simp [Build.build_index, hd]
    · by_cases h1 : env.split 1000 200 (Build.loadFiles files).documents = []
      · by_cases h2 : env.split 400 100 (Build.loadFiles files).documents = []
        · simp [Build.build_index, hd, h1, h2]
        · rcases hfd : env.from_documents (env.split 400 100 (Build.loadFiles files).documents)
            with e | db
          · simp [Build.build_index, hd, h1, h2, hfd]
          · rcases hse : env.save_exc with _ | e2
            · exact absurd (by simp [Build.build_index, hd, h1, h2, hfd, hse]) hst
            · simp [Build.build_index, hd, h1, h2, hfd, hse]
      · rcases hfd : env.from_documents (env.split 1000 200 (Build.loadFiles files).documents)
          with e | db
        · simp [Build.build_index, hd, h1, hfd]
        · rcases hse : env.save_exc with _ | e2
          · exact absurd (by simp [Build.build_index, hd, h1, hfd, hse]) hst
          · simp [Build.build_index, hd, h1, hfd, hse]
  · intro aenv e hex hle
    simp [App.load_rag_chain, hex, hle]
  · intro c e q
    rfl

/-- Build environment for the C8 witness whose `FAISS.from_documents` call
fails (embedding backend unreachable). -/
def C8_fail_env : Build.BuildEnv :=
  ⟨fun _ _ ds => ds, fun _ => .error "嵌入服务不可用", none⟩

/-- Build environment for the C8 witness in which every external call
succeeds. -/
def C8_ok_env : Build.BuildEnv :=
  ⟨fun _ _ ds => ds,
   fun ds => .ok ⟨ds.map fun d => ⟨[], d.page_content, d.source⟩⟩, none⟩

def C8_files : List Build.FileEntry := [⟨"a.pdf", .ok [⟨"正文", "a.pdf"⟩]⟩]

/-- App environment for the C8 witness: index present but initialization
raises. -/
def C8_app_env : App.AppEnv :=
  ⟨true, some "连接失败", ⟨[]⟩, fun _ => [], fun _ => "", none⟩

/-- C8 witness: concrete instantiations of all four parts. -/
theorem C8_failures_diagnosed_no_partial_write_witness :
    (∃ db, C8_ok_env.from_documents (Build.build_index C8_ok_env C8_files).chunks
      = Except.ok db) ∧
    (Build.build_index C8_fail_env C8_files).diagnostics ≠ [] ∧
    App.load_rag_chain C8_app_env = (none, [App.initFailMsg "连接失败"]) ∧
    App.handle_question ⟨⟨[]⟩, fun _ => [], fun _ => ""⟩ (some "超时") "q"
      = (App.invokeErrMsg "超时", []) :=
  ⟨C8_failures_diagnosed_no_partial_write.1 C8_ok_env C8_files (by decide),
   C8_failures_diagnosed_no_partial_write.2.1 C8_fail_env C8_files (by decide),
   C8_failures_diagnosed_no_partial_write.2.2.1 C8_app_env "连接失败" rfl rfl,
   C8_failures_diagnosed_no_partial_write.2.2.2 ⟨⟨[]⟩, fun _ => [], fun _ => ""⟩ "超时" "q"⟩

/-- C9: the composer passes each retrieved chunk's full text to the model —
the answer is the LLM applied to the prompt built from the untruncated chunk
texts, and each retrieved chunk's full `page_content` occurs verbatim in the
context block — while the displayed citation excerpt is the first 500
characters plus an ellipsis: it never exceeds 503 characters, and a chunk of
at most 500 characters is displayed in full. -/
theorem C9_full_text_to_model_display_truncated :
    ∀ (c : App.RagChain) (q : String),
      (App.rag_invoke c q).answer =
        c.llm (App.buildPrompt q (App.buildContext (App.rag_invoke c q).context)) ∧
      (∀ d ∈ (App.rag_invoke c q).context,
        ∃ pre post,
          App.buildContext (App.rag_invoke c q).context = pre ++ d.page_content ++ post) ∧
      (∀ d : Doc, (App.displayExcerpt d).length ≤ 503) ∧
      (∀ d : Doc, d.page_content.length ≤ 500 →
        App.displayExcerpt d = d.page_content ++ "...") := by
  intro c q
  refine ⟨rfl, fun d hd => buildContext_contains _ d hd, fun d => ?_, fun d hlen => ?_⟩
  · have h1 : (App.displayExcerpt d).length
        = (d.page_content.data.take 500).length + 3 :=
      String.length_append _ _
    have h2 : (d.page_content.data.take 500).length ≤ 500 :=
      List.length_take_le 500 d.page_content.data
    omega
  · show String.mk (d.page_content.data.take 500) ++ "..." = d.page_content ++ "..."
    rw [List.take_of_length_le hlen]

/-- Chain for the C9 witness: one short chunk, identity LLM. -/
def C9_chain : App.RagChain :=
  ⟨⟨[⟨[1], "工序说明", "a.pdf"⟩]⟩, fun _ => [1], fun p => p⟩

/-- C9 witness: the retrieved chunk's full text occurs in the context handed
to the model, and — being at most 500 characters — its citation excerpt shows
it in full. -/
theorem C9_full_text_to_model_display_truncated_witness :
    (∃ pre post,
      App.buildContext (App.rag_invoke C9_chain "q").context
        = pre ++ (Doc.mk "工序说明" "a.pdf").page_content ++ post) ∧
    App.displayExcerpt ⟨"工序说明", "a.pdf"⟩ = (Doc.mk "工序说明" "a.pdf").page_content ++ "..." :=
  ⟨(C9_full_text_to_model_display_truncated C9_chain "q").2.1 ⟨"工序说明", "a.pdf"⟩ (by decide),
   (C9_full_text_to_model_display_truncated C9_chain "q").2.2.2 ⟨"工序说明", "a.pdf"⟩ (by decide)⟩

theorem loadFiles_skip_unsupported (f : Build.FileEntry)
    (h : Build.extSupported f.name = false) (pre post : List Build.FileEntry) :
    Build.loadFiles (pre ++ f :: post) = Build.loadFiles (pre ++ post) := by
  induction pre with
  | nil => simp [Build.loadFiles, h]
  | cons g pre ih => simp only [List.cons_append, Build.loadFiles, List.append_eq, ih]

theorem loadFiles_err_logged_skipped (name e : String)
    (h : Build.extSupported name = true) (pre post : List Build.FileEntry) :
    (Build.loadFiles (pre ++ ⟨name, .err e⟩ :: post)).documents =
      (Build.loadFiles (pre ++ post)).documents ∧
    Build.loadFailMsg name e ∈ (Build.loadFiles (pre ++ ⟨name, .err e⟩ :: post)).diagnostics := by
  induction pre with
  | nil =>
    constructor
    · simp [Build.loadFiles, h]
    · simp [Build.loadFiles, h]
  | cons g pre ih =>
    constructor
    · by_cases hg : Build.extSupported g.name = true
      · cases hgl : g.load with
        | ok ds => simp [Build.loadFiles, hg, hgl, ih.1]
        | err e2 => simp [Build.loadFiles, hg, hgl, ih.1]
      · simp only [List.cons_append, Build.loadFiles, if_neg hg]
        exact ih.1
    · by_cases hg : Build.extSupported g.name = true
      · cases hgl : g.load with
        | ok ds =>
          simp only [List.cons_append, Build.loadFiles, if_pos hg, hgl]
          exact List.mem_cons_of_mem _ ih.2
        | err e2 =>
          simp only [List.cons_append, Build.loadFiles, if_pos hg, hgl]
          exact List.mem_cons_of_mem _ (List.mem_cons_of_mem _ ih.2)
      · simp only [List.cons_append, Build.loadFiles, if_neg hg]
        exact ih.2

/-- C10: a file whose lowercased extension has no registered loader is
silently skipped — the loading outcome, and with it the whole build, is
exactly as if the file were absent (no diagnostic, no documents, no failure)
— while a supported file whose loader raises is logged with the failure
message and skipped, the remaining files still contributing their documents. -/
theorem C10_unsupported_silently_skipped_loader_failure_logged :
    (∀ (pre post : List Build.FileEntry) (f : Build.FileEntry),
      Build.extSupported f.name = false →
      Build.loadFiles (pre ++ f :: post) = Build.loadFiles (pre ++ post) ∧
      ∀ env, Build.build_index env (pre ++ f :: post) = Build.build_index env (pre ++ post)) ∧
    (∀ (pre post : List Build.FileEntry) (name e : String),
      Build.extSupported name = true →
      (Build.loadFiles (pre ++ ⟨name, .err e⟩ :: post)).documents =
        (Build.loadFiles (pre ++ post)).documents ∧
      Build.loadFailMsg name e ∈
        (Build.loadFiles (pre ++ ⟨name, .err e⟩ :: post)).diagnostics) := by
  constructor
  · intro pre post f hf
    refine ⟨loadFiles_skip_unsupported f hf pre post, fun env => ?_⟩
    simp only [Build.build_index, loadFiles_skip_unsupported f hf pre post]
  · intro pre post name e h
    exact loadFiles_err_logged_skipped name e h pre post

/-- C10 witness: a `.txt` file is skipped with no trace, and a failing `.pdf`
loader leaves its failure message in the diagnostics. -/
theorem C10_unsupported_silently_skipped_loader_failure_logged_witness :
    Build.loadFiles [⟨"readme.txt", .ok [⟨"说明", "readme.txt"⟩]⟩] = Build.loadFiles [] ∧
    Build.loadFailMsg "b.pdf" "解析失败" ∈
      (Build.loadFiles [⟨"b.pdf", .err "解析失败"⟩]).diagnostics :=
  ⟨(C10_unsupported_silently_skipped_loader_failure_logged.1 [] []
      ⟨"readme.txt", .ok [⟨"说明", "readme.txt"⟩]⟩ (by decide)).1,
   (C10_unsupported_silently_skipped_loader_failure_logged.2 [] []
      "b.pdf" "解析失败" (by decide)).2⟩
